import Mathlib

/-!
Shallow embedding of the ZEE assistant's conversational session engine
(`advanced_ai.py`, `zee_service.py`).  Pure functions of the source become
Lean functions; the mutable `AdvancedAI` / `ConversationManager` objects
become explicit state passing; calls to external collaborators (the
generation model, the clock, `random`, the filesystem) become explicit
parameters.  Floats are idealised as rationals.
-/

namespace ZEE

/-- Whether `l₁` is a prefix of `l₂` (over characters). -/
def listPrefixOf : List Char → List Char → Bool
  | [], _ => true
  | _ :: _, [] => false
  | a :: as, b :: bs => a == b && listPrefixOf as bs

/-- Whether `needle` occurs as a contiguous sublist of `hay`. -/
def hasSubstr (needle : List Char) : List Char → Bool
  | [] => listPrefixOf needle []
  | c :: t => listPrefixOf needle (c :: t) || hasSubstr needle t

/-- Python `needle in hay` (substring containment). -/
def strContains (hay needle : String) : Bool :=
  hasSubstr needle.data hay.data

/-- Python `s.lower()` (ASCII case folding; every string in the modelled
code paths is ASCII). -/
def pyLower (s : String) : String :=
  ⟨s.data.map Char.toLower⟩

/-- Last-`n`-elements of a list (semantics of appending to a
`collections.deque` with `maxlen = n`: the oldest elements are evicted). -/
def lastN (n : Nat) (l : List α) : List α :=
  (l.reverse.take n).reverse

/-- A stored conversation message.  Source: `ConversationManager.add_message`
builds `{"role", "content", "timestamp"}`; the ISO timestamp string is
modelled as a `Nat` tick. -/
structure Message where
  role : String
  content : String
  timestamp : Nat
  deriving Repr, DecidableEq

/-! ## Sentiment analysis — `AdvancedAI.analyze_sentiment` -/

def positive_words : List String :=
  ["good", "great", "awesome", "thanks", "perfect", "excellent", "wonderful",
   "love", "amazing", "fantastic", "appreciate", "helpful"]

def negative_words : List String :=
  ["bad", "error", "problem", "issue", "wrong", "failed", "broken", "stuck",
   "help", "confused", "frustrated", "not working", "crash"]

def urgency_words : List String :=
  ["urgent", "emergency", "critical", "asap", "immediately"]

/-- `AdvancedAI.analyze_sentiment`: lower-case, count positive/negative word
occurrences (substring membership, one per listed word), return "urgent" when
any urgency indicator is present, else compare the counts. -/
def analyze_sentiment (text : String) : String :=
  let text_lower := pyLower text
  let positive_count := (positive_words.filter (fun w => strContains text_lower w)).length
  let negative_count := (negative_words.filter (fun w => strContains text_lower w)).length
  if urgency_words.any (fun w => strContains text_lower w) then
    "urgent"
  else if positive_count > negative_count then
    "positive"
  else if negative_count > positive_count then
    "negative"
  else
    "neutral"

/-- Spec-side view of the polarity comparison used when no urgency keyword is
present (for stating C4). -/
def polarityOf (text : String) : String :=
  let text_lower := pyLower text
  let positive_count := (positive_words.filter (fun w => strContains text_lower w)).length
  let negative_count := (negative_words.filter (fun w => strContains text_lower w)).length
  if positive_count > negative_count then "positive"
  else if negative_count > positive_count then "negative"
  else "neutral"

/-- Whether the lower-cased text contains an urgency keyword. -/
def hasUrgency (text : String) : Bool :=
  urgency_words.any (fun w => strContains (pyLower text) w)

/-! ## String helpers shared by the embedded code -/

/-- Python `s.startswith(p)`. -/
def pyStartsWith (s p : String) : Bool :=
  listPrefixOf p.data s.data

/-- Python `s[:n]` (take the first `n` characters). -/
def strTake (s : String) (n : Nat) : String :=
  ⟨s.data.take n⟩

/-- Characters Python's `str.strip()` removes. -/
def isPySpace (c : Char) : Bool :=
  c == ' ' || c == '\t' || c == '\n' || c == '\r' || c == '\x0b' || c == '\x0c'

/-- Python `s.strip()`. -/
def pyStrip (s : String) : String :=
  ⟨((s.data.dropWhile isPySpace).reverse.dropWhile isPySpace).reverse⟩

/-- First value bound to `k` in an association list (a Python dict lookup;
dicts preserve insertion order and never hold duplicate keys). -/
def getAssoc (l : List (String × α)) (k : String) : Option α :=
  (l.find? (fun p => p.1 == k)).map (·.2)

/-- Python `d[k] = x`: overwrite in place if present, else append. -/
def setAssoc (l : List (String × α)) (k : String) (x : α) : List (String × α) :=
  if l.any (fun p => p.1 == k) then
    l.map (fun p => if p.1 == k then (k, x) else p)
  else l ++ [(k, x)]

/-- Python `random.choice(l)`: the external random source is modelled by the
explicit pick `i` (reduced modulo the list length). -/
def pyChoice (l : List String) (i : Nat) : String :=
  l.getD (i % l.length) ""

/-! ## Session Context Store — `ConversationManager` -/

/-- The mutable fields of `ConversationManager` that the modelled code paths
read or write.  `user_preferences` and `current_mood` are initialised and
never used by any modelled operation; `session_start` is modelled by passing
the elapsed session seconds to `update_emotional_state` explicitly. -/
structure ConversationManager where
  max_history : Nat := 10
  conversation_history : List Message := []
  current_topic : Option String := none
  interaction_count : Nat := 0
  successful_helps : Nat := 0
  deriving Repr, DecidableEq

/-- `ConversationManager.add_message`: append to the bounded deque
(`maxlen = max_history`, oldest evicted on overflow). -/
def add_message (cm : ConversationManager) (role content : String) (t : Nat) :
    ConversationManager :=
  let history := lastN cm.max_history (cm.conversation_history ++ [⟨role, content, t⟩])
  { cm with conversation_history := history }

/-- The static keyword-to-topic table of `ConversationManager.detect_topic`,
in source (dict insertion) order. -/
def topicsTable : List (String × List String) :=
  [("coding", ["code", "programming", "debug", "error", "function", "python",
               "javascript", "git", "commit", "repository", "variable", "class", "api"]),
   ("research", ["research", "search", "find", "learn", "explain", "what is",
                 "how does", "tell me about", "information"]),
   ("tasks", ["task", "todo", "reminder", "deadline", "meeting", "schedule",
              "note", "complete"]),
   ("system", ["open", "close", "volume", "brightness", "wifi", "type",
               "window", "application"])]

/-- `ConversationManager.detect_topic`: first table row with any keyword
occurring in the lower-cased text. -/
def detect_topic (text : String) : Option String :=
  let text_lower := pyLower text
  (topicsTable.find? (fun p => p.2.any (fun k => strContains text_lower k))).map (·.1)

/-- `ConversationManager.update_topic`: set `current_topic` only when a topic
was detected. -/
def update_topic (cm : ConversationManager) (text : String) : ConversationManager :=
  match detect_topic text with
  | some topic => { cm with current_topic := some topic }
  | none => cm

/-! ## Emotional state and personality — `AdvancedAI.__init__`,
`AdvancedAI._update_emotional_state` -/

/-- `AdvancedAI.personality` (static weights). -/
structure Personality where
  enthusiasm_level : ℚ
  humor_level : ℚ
  formality : ℚ
  empathy : ℚ
  proactiveness : ℚ
  patience : ℚ
  curiosity : ℚ
  deriving Repr, DecidableEq

def personality : Personality :=
  { enthusiasm_level := 8/10, humor_level := 6/10, formality := 3/10,
    empathy := 9/10, proactiveness := 7/10, patience := 85/100, curiosity := 75/100 }

/-- `AdvancedAI.emotional_state` (floats idealised as rationals). -/
structure EmotionalState where
  current_mood : String := "enthusiastic"
  energy_level : ℚ := 1
  satisfaction : ℚ := 8/10
  rapport : ℚ := 5/10
  deriving Repr, DecidableEq

/-- `AdvancedAI.learning_data` (shape of the `ai_learning.json` document):
`common_queries` maps a normalised query to its statistics, `user_patterns`
maps a time period to per-topic counts.  Python dicts become ordered
association lists. -/
structure QueryStat where
  count : Nat
  topic : Option String
  last_response_length : Nat
  deriving Repr, DecidableEq

structure LearningData where
  common_queries : List (String × QueryStat) := []
  user_patterns : List (String × List (String × Nat)) := []
  feedback : List String := []
  deriving Repr, DecidableEq

/-- The mutable state of one `AdvancedAI` instance (its session). -/
structure AIState where
  conversation : ConversationManager := {}
  learning_data : LearningData := {}
  emotional_state : EmotionalState := {}
  deriving Repr, DecidableEq

/-- `AdvancedAI._update_emotional_state`.  `elapsedSeconds` is the wall-clock
seconds since `conversation.session_start`; the source computes
`(datetime.now() - session_start).seconds / 3600`, and `timedelta.seconds`
is the seconds *component* of the timedelta, i.e. `elapsedSeconds % 86400`. -/
def update_emotional_state (st : AIState) (user_sentiment : String)
    (interaction_success : Bool) (elapsedSeconds : Nat) : AIState :=
  let conv := { st.conversation with
    interaction_count := st.conversation.interaction_count + 1 }
  let conv := if interaction_success then
      { conv with successful_helps := conv.successful_helps + 1 }
    else conv
  let emo := if interaction_success then
      { st.emotional_state with
        satisfaction := min 1 (st.emotional_state.satisfaction + 5/100) }
    else st.emotional_state
  let emo := { emo with rapport := min 1 (emo.rapport + 2/100) }
  let emo :=
    if user_sentiment == "negative" || user_sentiment == "urgent" then
      { emo with current_mood := "concerned" }
    else if user_sentiment == "positive" then
      if emo.rapport > (7/10 : ℚ) then { emo with current_mood := "playful" }
      else { emo with current_mood := "enthusiastic" }
    else
      { emo with current_mood := "focused" }
  let session_duration : ℚ := ((elapsedSeconds % 86400 : Nat) : ℚ) / 3600
  let emo :=
    if session_duration > 2 then
      { emo with energy_level := max (5/10) (1 - (session_duration - 2) * (1/10)) }
    else emo
  { st with conversation := conv, emotional_state := emo }

/-! ## Query Rewriter — `AdvancedAI.improve_query_understanding` -/

def pronouns : List String :=
  ["it", "this", "that", "they", "them", "those", "these"]

def followup_starters : List String :=
  ["and", "also", "what about", "how about", "why", "can you", "tell me more"]

def comparison_words : List String :=
  ["compare", "difference", "versus", "vs", "or"]

/-- The source's pronoun test: `f' {pronoun} ' in f' {query_lower} ' or
query_lower.startswith(f'{pronoun} ')`. -/
def pronounHit (query_lower : String) : Bool :=
  pronouns.any (fun p =>
    strContains (" " ++ query_lower ++ " ") (" " ++ p ++ " ")
      || pyStartsWith query_lower (p ++ " "))

/-- `AdvancedAI.improve_query_understanding`: rules tried in source order,
first one that `return`s wins; a rule whose inner condition fails falls
through to the later rules, exactly as in the source. -/
def improve_query_understanding (st : AIState) (query : String) : String :=
  let query_lower := pyLower query
  let recent_messages := lastN 3 st.conversation.conversation_history
  let pronounStep : Option String :=
    if pronounHit query_lower then
      match st.conversation.current_topic with
      | some topic => some (query ++ " [Context: discussing " ++ topic ++ "]")
      | none =>
        if recent_messages.isEmpty then none
        else
          -- `if last_user_msg:` — a found-but-empty content string is falsy
          -- in Python and falls through to the later rules, like `None`.
          match recent_messages.reverse.find? (fun m => m.role == "user") with
          | some m =>
            if m.content == "" then none
            else some (query ++ " [Previous question: " ++ strTake m.content 100 ++ "]")
          | none => none
    else none
  match pronounStep with
  | some r => r
  | none =>
    let followupStep : Option String :=
      if followup_starters.any (fun s => pyStartsWith query_lower s) then
        match recent_messages.getLast? with
        | some m => some (query ++ " [Continuing from: " ++ strTake m.content 150 ++ "]")
        | none => none
      else none
    match followupStep with
    | some r => r
    | none =>
      if comparison_words.any (fun w => strContains query_lower w) then
        query ++ " [Provide clear comparison with pros/cons]"
      else if pyStartsWith query_lower "how to" || pyStartsWith query_lower "how do i"
          || pyStartsWith query_lower "how can i" then
        query ++ " [Provide step-by-step instructions]"
      else
        query

/-! ## Response filtering and personality — `AdvancedAI._filter_response`,
`AdvancedAI._get_personality_flavor`, `AdvancedAI._add_emotional_touch` -/

def prefixes_to_remove : List String :=
  ["As ZEE, ", "As an AI assistant, ", "As your AI assistant, ",
   "Based on the context, ", "Sure! ", "Certainly! "]

/-- `AdvancedAI._filter_response`: strip, drop the first matching boilerplate
prefix (at most one), capitalise a lower-case first letter. -/
def filter_response (response : String) : String :=
  let response := pyStrip response
  let response :=
    match prefixes_to_remove.find? (fun p => pyStartsWith response p) with
    | some p => (⟨response.data.drop p.data.length⟩ : String)
    | none => response
  match response.data with
  | [] => response
  | c :: rest => if c.isLower then (⟨c.toUpper :: rest⟩ : String) else response

def enthusiasticFlavors : List String :=
  ["I'm excited to help with that!", "Great question! Let me dive into this.",
   "Ooh, this is interesting!", "Love it! Here's what I found:"]

def supportiveFlavors : List String :=
  ["I'm here to help you through this.", "Let's work on this together.",
   "Don't worry, we'll figure this out.", "I've got your back on this."]

def focusedFlavors : List String :=
  ["Let me focus on that for you.", "Here's what you need:",
   "Got it. Working on this now.", "On it."]

def playfulFlavors : List String :=
  ["Alright, time to work some magic! ✨", "You know I love a good challenge!",
   "Haha, I was hoping you'd ask that!", "Easy peasy! Check this out:"]

def concernedFlavors : List String :=
  ["I understand this is frustrating. Let me help.",
   "I can see this is important. Let's fix it.",
   "No worries, I'm on it right away.", "Let's tackle this problem together."]

def flavorsTable : List (String × List String) :=
  [("enthusiastic", enthusiasticFlavors), ("supportive", supportiveFlavors),
   ("focused", focusedFlavors), ("playful", playfulFlavors),
   ("concerned", concernedFlavors)]

/-- One call's draws from Python's `random`: `random.random()` rolls become
explicit rationals in `[0,1)`, `random.choice` picks become explicit
indices. -/
structure RandInput where
  flavorRoll : ℚ := 1
  flavorPick : Nat := 0
  encourageRoll : ℚ := 1
  encouragePick : Nat := 0
  casualRoll : ℚ := 1
  casualPick : Nat := 0
  deriving Repr, DecidableEq

/-- `AdvancedAI._get_personality_flavor`. -/
def get_personality_flavor (st : AIState) (rand : RandInput) : String :=
  let mood := st.emotional_state.current_mood
  let rapport := st.emotional_state.rapport
  let mood_flavors := (getAssoc flavorsTable mood).getD focusedFlavors
  if rapport < (5/10 : ℚ) then ""
  else if personality.enthusiasm_level > (7/10 : ℚ) then
    if rand.flavorRoll < (7/10 : ℚ) then pyChoice mood_flavors rand.flavorPick ++ " "
    else ""
  else ""

def milestone_remark : String :=
  "\n\nBy the way, we've had some great conversations together! Always happy to help. 😊"

def encouraging_phrases : List String :=
  ["You're doing great working through this!", "Hang in there, we're making progress!",
   "I know this can be tricky, but you've got this!"]

def casual_remarks : List String :=
  ["Glad I could help! 🎉", "Awesome! Let me know if you need anything else!",
   "Perfect! Always happy to assist!", "Nice! Shout if you need more help!"]

/-- `AdvancedAI._add_emotional_touch` (called after the emotional-state
update, so it reads the already-incremented `interaction_count`). -/
def add_emotional_touch (st : AIState) (response : String)
    (user_sentiment : String) (rand : RandInput) : String :=
  let response :=
    if st.conversation.interaction_count % 10 == 0
        && st.conversation.interaction_count > 0
        && st.emotional_state.rapport > (7/10 : ℚ) then
      response ++ milestone_remark
    else response
  let response :=
    if user_sentiment == "negative" && personality.empathy > (7/10 : ℚ)
        && rand.encourageRoll < (4/10 : ℚ) then
      response ++ "\n\n" ++ pyChoice encouraging_phrases rand.encouragePick
    else response
  let response :=
    if st.emotional_state.rapport > (8/10 : ℚ) && user_sentiment == "positive"
        && rand.casualRoll < (3/10 : ℚ) then
      response ++ "\n\n" ++ pyChoice casual_remarks rand.casualPick
    else response
  response

/-! ## Learning Store — `AdvancedAI._load_learning_data`,
`AdvancedAI._learn_from_query` -/

/-- The default record `_load_learning_data` falls back to:
`{"common_queries": {}, "user_patterns": {}, "feedback": []}`. -/
def defaultLearningData : LearningData :=
  { common_queries := [], user_patterns := [], feedback := [] }

/-- `AdvancedAI._load_learning_data`.  The durable storage is passed
explicitly: `none` models a missing `ai_learning.json`, `some none` a file
whose contents `json.load` cannot parse (the bare `except` swallows the
error), `some (some d)` a successfully parsed record. -/
def load_learning_data (storage : Option (Option LearningData)) : LearningData :=
  match storage with
  | some (some d) => d
  | some none => defaultLearningData
  | none => defaultLearningData

/-- The time-of-day bucket of `_learn_from_query`:
`"morning" if 6 <= h < 12 else "afternoon" if 12 <= h < 18 else "evening"`. -/
def time_period_of (hour : Nat) : String :=
  if 6 ≤ hour ∧ hour < 12 then "morning"
  else if 12 ≤ hour ∧ hour < 18 then "afternoon"
  else "evening"

/-- `AdvancedAI._learn_from_query` (the periodic `_save_learning_data` flush
is filesystem I/O with no effect on in-memory state and is not modelled). -/
def learn_from_query (st : AIState) (query response : String) (hour : Nat) :
    LearningData :=
  let query_lower := pyLower query
  let ld := st.learning_data
  let entry := (getAssoc ld.common_queries query_lower).getD
    { count := 0, topic := st.conversation.current_topic, last_response_length := 0 }
  let entry := { entry with
    count := entry.count + 1,
    last_response_length := response.data.length,
    topic := st.conversation.current_topic }
  let cq := setAssoc ld.common_queries query_lower entry
  let time_period := time_period_of hour
  let periodMap := (getAssoc ld.user_patterns time_period).getD []
  let topic := st.conversation.current_topic.getD "general"
  let topicCount := (getAssoc periodMap topic).getD 0
  let periodMap := setAssoc periodMap topic (topicCount + 1)
  let up := setAssoc ld.user_patterns time_period periodMap
  { ld with common_queries := cq, user_patterns := up }

/-! ## Response Orchestrator — `AdvancedAI.generate_smart_response` -/

/-- Python truthiness of the generation result (`if response:`):
`None` and `""` are both falsy. -/
def truthy : Option String → Bool
  | none => false
  | some r => !(r == "")

/-- `AdvancedAI.generate_smart_response`.  External inputs are explicit:
`genResult` is what `self.research.ai.generate_response(enhanced_prompt, ...)`
returned for this call, `rand` the `random` draws, `tUser`/`tAssistant` the
two `datetime.now()` message timestamps, `hour` the clock hour read by
`_learn_from_query`, `elapsedSeconds` the session age read by
`_update_emotional_state`.  The assembled prompt itself (conversation
rendering plus system context) only flows out to the collaborator, so it does
not appear in the state. -/
def generate_smart_response (st : AIState) (query : String)
    (context : Option String) (genResult : Option String) (rand : RandInput)
    (tUser tAssistant hour elapsedSeconds : Nat) : Option String × AIState :=
  let _improved_query := improve_query_understanding st query
  let _workspace_context := context   -- prompt-only, like the improved query
  let st := { st with conversation := add_message st.conversation "user" query tUser }
  let st := { st with conversation := update_topic st.conversation query }
  let sentiment := analyze_sentiment query
  let st := update_emotional_state st sentiment true elapsedSeconds
  if truthy genResult then
    let r := genResult.getD ""
    let r := filter_response r
    let personality_intro := get_personality_flavor st rand
    let r := if personality_intro == "" then r else personality_intro ++ r
    let r := add_emotional_touch st r sentiment rand
    let st := { st with conversation := add_message st.conversation "assistant" r tAssistant }
    let st := { st with learning_data := learn_from_query st query r hour }
    (some r, st)
  else
    (genResult, st)

/-! ## Wake-word & command dispatch — `ZEEService.process_command` -/

/-- The command categories of `ZEEService.process_command`'s `if/elif` chain,
in source order; `general` is the final `else` (the Response Orchestrator). -/
inductive Handler where
  | stopSpeech
  | briefing
  | sleepExit
  | openApp
  | volumeCtl
  | research
  | helpInfo
  | typing
  | taskAdd
  | taskList
  | taskComplete
  | noteTake
  | workspaceStatus
  | gitStatus
  | general
  deriving Repr, DecidableEq

def stop_keywords : List String :=
  ["stop", "quiet", "shut up", "stop talking", "stop speaking"]

def briefing_phrases : List String :=
  ["what's special today", "whats special today", "daily briefing",
   "what's today", "today's briefing"]

def sleep_keywords : List String :=
  ["sleep", "goodbye", "stop listening"]

def typing_keywords : List String :=
  ["type", "write", "enter", "search for"]

def task_add_phrases : List String :=
  ["add task", "new task", "create task", "remind me to", "todo"]

def task_list_phrases : List String :=
  ["list tasks", "show tasks", "my tasks", "what tasks", "task summary"]

def note_phrases : List String :=
  ["take note", "make note", "note this", "remember this"]

def workspace_phrases : List String :=
  ["what am i working on", "current context", "workspace status"]

/-- The rule table of `ZEEService.process_command`: each `elif`'s keyword
test against `command.lower()`, evaluated top to bottom, first match wins;
no match falls through to the general AI query. -/
def dispatch (command : String) : Handler :=
  let c := pyLower command
  if stop_keywords.any (fun w => strContains c w) then .stopSpeech
  else if briefing_phrases.any (fun p => strContains c p) then .briefing
  else if sleep_keywords.any (fun w => strContains c w) then .sleepExit
  else if strContains c "open" then .openApp
  else if strContains c "volume" then .volumeCtl
  else if strContains c "research" || strContains c "search"
      || strContains c "tell me about" then .research
  else if strContains c "help" || strContains c "what can you do" then .helpInfo
  else if typing_keywords.any (fun w => strContains c w) then .typing
  else if task_add_phrases.any (fun p => strContains c p) then .taskAdd
  else if task_list_phrases.any (fun p => strContains c p) then .taskList
  else if strContains c "complete task" || strContains c "task done" then .taskComplete
  else if note_phrases.any (fun p => strContains c p) then .noteTake
  else if workspace_phrases.any (fun p => strContains c p) then .workspaceStatus
  else if strContains c "git status" then .gitStatus
  else .general

/-- Replace every non-overlapping occurrence of `pat` (non-empty) left to
right, structurally recursing on a character budget. -/
def replaceAux (pat rep : List Char) : Nat → List Char → List Char
  | 0, s => s
  | _, [] => []
  | fuel + 1, c :: t =>
    if !pat.isEmpty && listPrefixOf pat (c :: t) then
      rep ++ replaceAux pat rep fuel (t.drop (pat.length - 1))
    else
      c :: replaceAux pat rep fuel t

/-- Python `s.replace(pat, rep)` for a non-empty `pat`. -/
def pyReplace (s pat rep : String) : String :=
  ⟨replaceAux pat.data rep.data s.data.length s.data⟩

/-- The topic the research branch extracts and passes to
`research_and_explain`: `command_lower.replace('research', '').replace(
'search', '').replace('tell me about', '').strip()`; the handler is invoked
only when this is non-empty. -/
def researchTopic (command : String) : String :=
  pyStrip (pyReplace (pyReplace (pyReplace (pyLower command)
    "research" "") "search" "") "tell me about" "")

/-- The apology the service speaks when the orchestrator produced nothing. -/
def fallback_phrase : String :=
  "I'm not sure how to help with that. Try asking differently!"

/-- What `ZEEService.process_command` did with an utterance. -/
inductive Outcome where
  /-- A rule-table category matched; its handler collaborator ran. -/
  | handled (h : Handler)
  /-- No category matched; the Response Orchestrator ran and `spoken` is what
  the service speaks for its result. -/
  | answered (spoken : String)
  deriving Repr, DecidableEq

/-- `ZEEService.process_command`, restricted to the state this embedding
tracks (the `AdvancedAI` session) plus the dispatch outcome.  The non-general
branches talk to external collaborators (voice, system, tasks, workspace) and
do not touch the `AdvancedAI` state.  `tFirst` stamps the unconditional
`add_message` at the top of `process_command`; the remaining external inputs
are those of `generate_smart_response`, used only on the general path
(`wsCtx`/`taskCtx` are the workspace and task summaries interpolated into the
context string). -/
def process_command (st : AIState) (command : String)
    (genResult : Option String) (rand : RandInput)
    (tFirst tUser tAssistant hour elapsedSeconds : Nat)
    (wsCtx taskCtx : String) : Outcome × AIState :=
  let st := { st with conversation := add_message st.conversation "user" command tFirst }
  match dispatch command with
  | .general =>
    let context := "Workspace: " ++ wsCtx ++ "\nTasks: " ++ taskCtx
    let (result, st) := generate_smart_response st command (some context)
      genResult rand tUser tAssistant hour elapsedSeconds
    if truthy result then
      (.answered (result.getD ""), st)
    else
      (.answered fallback_phrase, st)
  | h => (.handled h, st)

/-! ## Sequences of calls (for the claims quantifying over call sequences) -/

/-- A sequence of `add_message` calls on one `ConversationManager`. -/
def appendAll (cm : ConversationManager) (ms : List Message) : ConversationManager :=
  ms.foldl (fun c m => add_message c m.role m.content m.timestamp) cm

/-- One `_update_emotional_state` call's inputs:
(user_sentiment, interaction_success, elapsed session seconds). -/
def applyUpdates (st : AIState) (us : List (String × Bool × Nat)) : AIState :=
  us.foldl (fun s u => update_emotional_state s u.1 u.2.1 u.2.2) st

/-! # Supporting lemmas -/

theorem lastN_nil (n : Nat) : lastN n ([] : List α) = [] := by
  simp [lastN]

theorem lastN_length_le (n : Nat) (l : List α) : (lastN n l).length ≤ n := by
  simp [lastN]

/-- Re-truncating a truncated history before appending is the same as
truncating once at the end: the deque seen through `lastN` is stable. -/
theorem lastN_lastN_append (n : Nat) (h l : List α) :
    lastN n (lastN n h ++ l) = lastN n (h ++ l) := by
  unfold lastN
  rw [List.reverse_append, List.reverse_reverse, List.reverse_append]
  congr 1
  rw [List.take_append_eq_append_take, List.take_append_eq_append_take, List.take_take]
  rw [Nat.min_eq_left (Nat.sub_le n _)]

/-- `add_message` appends (with eviction) and touches nothing else. -/
theorem add_message_history (cm : ConversationManager) (role content : String) (t : Nat) :
    (add_message cm role content t).conversation_history
      = lastN cm.max_history (cm.conversation_history ++ [⟨role, content, t⟩]) := by
  simp [add_message]

theorem add_message_max (cm : ConversationManager) (role content : String) (t : Nat) :
    (add_message cm role content t).max_history = cm.max_history := by
  simp [add_message]

/-- `update_topic` only touches `current_topic`. -/
theorem update_topic_history (cm : ConversationManager) (text : String) :
    (update_topic cm text).conversation_history = cm.conversation_history := by
  unfold update_topic
  cases detect_topic text <;> simp

theorem update_topic_max (cm : ConversationManager) (text : String) :
    (update_topic cm text).max_history = cm.max_history := by
  unfold update_topic
  cases detect_topic text <;> simp

/-- `_update_emotional_state` never touches the stored history, the topic,
the capacity or the learning data. -/
theorem update_emotional_history (st : AIState) (s : String) (b : Bool) (e : Nat) :
    (update_emotional_state st s b e).conversation.conversation_history
      = st.conversation.conversation_history := by
  unfold update_emotional_state
  cases b <;> simp

theorem update_emotional_max (st : AIState) (s : String) (b : Bool) (e : Nat) :
    (update_emotional_state st s b e).conversation.max_history
      = st.conversation.max_history := by
  unfold update_emotional_state
  cases b <;> simp

theorem update_emotional_learning (st : AIState) (s : String) (b : Bool) (e : Nat) :
    (update_emotional_state st s b e).learning_data = st.learning_data := by
  unfold update_emotional_state
  cases b <;> simp

/-! # Claims -/

/-- C9: with the durable storage missing (`none`) or holding unparseable
JSON (`some none`), `_load_learning_data` returns the empty default record
`{common_queries: {}, user_patterns: {}, feedback: []}`; being a total
function, it raises nothing, and the session starts from that default. -/
theorem C9_load_defaults :
    load_learning_data none = defaultLearningData
      ∧ load_learning_data (some none) = defaultLearningData
      ∧ defaultLearningData.common_queries = []
      ∧ defaultLearningData.user_patterns = []
      ∧ defaultLearningData.feedback = [] :=
  ⟨rfl, rfl, rfl, rfl, rfl⟩

/-- C4: `analyze_sentiment` returns "urgent" whenever an urgency keyword
occurs in the lower-cased text, regardless of the positive/negative counts;
with no urgency keyword it returns the polarity comparison (positive iff
strictly more positive words, negative iff strictly more negative words,
neutral on ties); and on "this is urgent, please help" it returns "urgent"
even though "help" is a negative word. -/
theorem C4_sentiment_urgent_first :
    (∀ text, hasUrgency text = true → analyze_sentiment text = "urgent")
      ∧ (∀ text, hasUrgency text = false → analyze_sentiment text = polarityOf text)
      ∧ analyze_sentiment "this is urgent, please help" = "urgent" := by
  refine ⟨fun text h => ?_, fun text h => ?_, by decide⟩
  · have h' : (urgency_words.any fun w => strContains (pyLower text) w) = true := h
    simp [analyze_sentiment, h']
  · have h' : (urgency_words.any fun w => strContains (pyLower text) w) = false := h
    simp [analyze_sentiment, polarityOf, h']

/-- C4 witness: both implications discharged at concrete inputs ("asap" is
urgent; "thanks, that's great" has no urgency keyword and classifies by
polarity, which is "positive"). -/
theorem C4_sentiment_urgent_first_witness :
    analyze_sentiment "asap" = "urgent"
      ∧ analyze_sentiment "thanks, that's great" = polarityOf "thanks, that's great"
      ∧ polarityOf "thanks, that's great" = "positive" :=
  ⟨C4_sentiment_urgent_first.1 "asap" (by decide),
   C4_sentiment_urgent_first.2.1 "thanks, that's great" (by decide),
   by decide⟩

/-- C1: for the utterance "search for python tutorials", the dispatch rule
table selects the research category — not the typing category, whose
"search for" keyword also matches but sits lower in the fixed order — the
research handler receives the non-empty stripped topic, and the outcome is a
handled rule match, not an orchestrator answer. -/
theorem C1_search_dispatches_research :
    dispatch "search for python tutorials" = Handler.research
      ∧ dispatch "search for python tutorials" ≠ Handler.typing
      ∧ (process_command {} "search for python tutorials" none {} 0 0 0 0 0 "" "").fst
          = Outcome.handled Handler.research
      ∧ researchTopic "search for python tutorials" = "for python tutorials" := by
  refine ⟨by decide, by decide, by decide, by decide⟩

/-- C2 counterexample: with the generation collaborator returning no output
(`None`), `generate_smart_response` returns `None` at this concrete input —
no value at all — not a fixed apology string, refuting the claim that the
orchestrator itself degrades to an apology. -/
theorem C2_returns_none_cex :
    (generate_smart_response {} "hello" none none {} 0 1 9 5).fst = none := by
  decide

/-- C2 (amended): when the generation collaborator returns `None`, the
orchestrator returns `None` for every session state and query (it does not
raise); the fixed apology is produced one layer up, by
`ZEEService.process_command`, which speaks the fallback phrase whenever the
orchestrator's result is empty on the general path. -/
theorem C2_none_apology_at_service :
    (∀ (st : AIState) (query : String) (context : Option String) (rand : RandInput)
        (tU tA hour e : Nat),
      (generate_smart_response st query context none rand tU tA hour e).fst = none)
      ∧ (∀ (st : AIState) (cmd : String) (rand : RandInput)
          (t1 t2 t3 hour e : Nat) (ws tk : String),
        dispatch cmd = Handler.general →
          (process_command st cmd none rand t1 t2 t3 hour e ws tk).fst
            = Outcome.answered fallback_phrase) := by
  constructor
  · intro st query context rand tU tA hour e
    rfl
  · intro st cmd rand t1 t2 t3 hour e ws tk hgen
    simp [process_command, hgen, generate_smart_response, truthy]

/-- C2 witness: the amended behaviour at the concrete general-path utterance
"hello there friend" (no rule-table keyword matches it). -/
theorem C2_none_apology_at_service_witness :
    (generate_smart_response {} "hello there friend" none none {} 0 1 9 5).fst = none
      ∧ (process_command {} "hello there friend" none {} 0 1 2 9 5 "w" "t").fst
          = Outcome.answered fallback_phrase :=
  ⟨C2_none_apology_at_service.1 {} "hello there friend" none {} 0 1 9 5,
   C2_none_apology_at_service.2 {} "hello there friend" {} 0 1 2 9 5 "w" "t" (by decide)⟩

/-- C3 counterexample: at a concrete call where the generation collaborator
returns no result, the session state after the call differs from the state
before it — the user turn was appended and the interaction counter moved —
refuting "session state after the call equals the state before". -/
theorem C3_state_changes_cex :
    (generate_smart_response {} "hello" none none {} 0 1 9 5).snd.conversation
        ≠ ({} : AIState).conversation := by
  decide

/-- C3 (amended): when the generation collaborator returns no result, the
orchestrator still appends the USER turn, updates the topic and runs the
emotional-state update (interaction counters, satisfaction, rapport, mood,
energy); only the assistant turn and the learning data are left as before
the call. -/
theorem C3_empty_result_partial_update :
    ∀ (st : AIState) (query : String) (context : Option String) (rand : RandInput)
      (tU tA hour e : Nat),
      generate_smart_response st query context none rand tU tA hour e
          = (none,
             update_emotional_state
               { st with conversation :=
                   update_topic (add_message st.conversation "user" query tU) query }
               (analyze_sentiment query) true e)
        ∧ (generate_smart_response st query context none rand tU tA hour e).snd.learning_data
            = st.learning_data := by
  intro st query context rand tU tA hour e
  exact ⟨rfl, rfl⟩

/-- C6: the code computes the session age from `timedelta.seconds`, the
seconds component that wraps every 24 hours, not the total elapsed time.
Evaluating the update at the failing inputs: a single update 25 h into the
session (90000 s) leaves energy at 1.0 where the claimed formula gives
max(0.5, 1.0 − (25−2)·0.1) = 0.5; and consecutive updates 8 h (28800 s) then
27 h (97200 s) into the session move energy from 0.5 up to 0.9, so energy is
not monotone non-increasing in wall-clock time past the 2-hour mark. -/
theorem C6_energy_wraps_after_24h :
    (update_emotional_state {} "neutral" true 90000).emotional_state.energy_level = 1
      ∧ (update_emotional_state {} "neutral" true 28800).emotional_state.energy_level = 1/2
      ∧ (update_emotional_state
            (update_emotional_state {} "neutral" true 28800)
            "neutral" true 97200).emotional_state.energy_level = 9/10 := by
  refine ⟨?_, ?_, ?_⟩ <;> norm_num [update_emotional_state] <;> decide

/-- Running `appendAll` from a truncated history extends it and re-truncates:
the field-level invariant behind the bounded deque. -/
theorem appendAll_lastN (n : Nat) (ms : List Message) :
    ∀ (h : List Message) (tc : Option String) (ic sh : Nat),
      appendAll ⟨n, lastN n h, tc, ic, sh⟩ ms = ⟨n, lastN n (h ++ ms), tc, ic, sh⟩ := by
  induction ms with
  | nil => intro h tc ic sh; simp [appendAll]
  | cons m ms ih =>
    intro h tc ic sh
    have step : add_message ⟨n, lastN n h, tc, ic, sh⟩ m.role m.content m.timestamp
        = ⟨n, lastN n (h ++ [m]), tc, ic, sh⟩ := by
      simp [add_message, lastN_lastN_append]
    calc appendAll ⟨n, lastN n h, tc, ic, sh⟩ (m :: ms)
        = appendAll ⟨n, lastN n (h ++ [m]), tc, ic, sh⟩ ms := by
          simp [appendAll, step]
      _ = ⟨n, lastN n ((h ++ [m]) ++ ms), tc, ic, sh⟩ := ih (h ++ [m]) tc ic sh
      _ = ⟨n, lastN n (h ++ m :: ms), tc, ic, sh⟩ := by simp

/-- C5: for every capacity `N` and every sequence `ms` of appended turns, a
fresh Session Context Store holds exactly the last `N` of `ms` in append
order (the oldest evicted first), its length never exceeding `N`; the
default capacity is 10. -/
theorem C5_bounded_fifo_history (N : Nat) (ms : List Message) :
    (appendAll { max_history := N } ms).conversation_history = lastN N ms
      ∧ (appendAll { max_history := N } ms).conversation_history.length ≤ N
      ∧ ({} : ConversationManager).max_history = 10 := by
  have base : ({ max_history := N } : ConversationManager) = ⟨N, lastN N [], none, 0, 0⟩ := by
    simp [lastN_nil]
  rw [base, appendAll_lastN N ms [] none 0 0]
  exact ⟨rfl, lastN_length_le _ _, rfl⟩

/-- C10: every utterance that falls through the rule table to the general
path is appended to the session history as a USER turn twice — once by
`process_command` before rule matching and once again inside
`generate_smart_response` — identical in role and content (only the
`datetime.now()` timestamps differ), consecutive, and consuming two of the
bounded-history slots; at most one further ASSISTANT turn follows. -/
theorem C10_two_user_turns_general_path :
    ∀ (st : AIState) (cmd : String) (gen : Option String) (rand : RandInput)
      (t1 t2 t3 hour e : Nat) (ws tk : String),
      dispatch cmd = Handler.general →
      ∃ tail : List Message, tail.length ≤ 1
        ∧ (∀ m ∈ tail, m.role = "assistant")
        ∧ (process_command st cmd gen rand t1 t2 t3 hour e ws tk).snd.conversation.conversation_history
            = lastN st.conversation.max_history
                (st.conversation.conversation_history
                  ++ ([⟨"user", cmd, t1⟩, ⟨"user", cmd, t2⟩] ++ tail)) := by
  intro st cmd gen rand t1 t2 t3 hour e ws tk hgen
  unfold process_command
  rw [hgen]
  match gen with
  | none =>
    simp [generate_smart_response, truthy,
      add_message_history, add_message_max, update_topic_history, update_topic_max,
      update_emotional_history, update_emotional_max, lastN_lastN_append]
    exact ⟨[], by simp, by simp, by simp⟩
  | some r =>
    by_cases hr : r == ""
    · simp [generate_smart_response, truthy, hr, apply_ite Prod.snd,
        add_message_history, add_message_max, update_topic_history, update_topic_max,
        update_emotional_history, update_emotional_max, lastN_lastN_append]
      exact ⟨[], by simp, by simp, by simp⟩
    · simp [generate_smart_response, truthy, hr, apply_ite Prod.snd,
        add_message_history, add_message_max, update_topic_history, update_topic_max,
        update_emotional_history, update_emotional_max, lastN_lastN_append]
      exact ⟨[⟨"assistant", _, t3⟩], by simp, by simp, rfl⟩

/-- C10 witness: the double USER turn at the concrete general-path utterance
"hello there friend" with the generation collaborator returning nothing. -/
theorem C10_two_user_turns_general_path_witness :
    ∃ tail : List Message, tail.length ≤ 1
      ∧ (∀ m ∈ tail, m.role = "assistant")
      ∧ (process_command {} "hello there friend" none {} 1 2 3 9 5 "w" "t").snd.conversation.conversation_history
          = lastN ({} : AIState).conversation.max_history
              (({} : AIState).conversation.conversation_history
                ++ ([⟨"user", "hello there friend", 1⟩, ⟨"user", "hello there friend", 2⟩] ++ tail)) :=
  C10_two_user_turns_general_path {} "hello there friend" none {} 1 2 3 9 5 "w" "t" (by decide)

/-- Each `_update_emotional_state` call sets rapport to
`min(1.0, rapport + 0.02)`, whatever branch the mood/energy logic takes. -/
theorem update_emotional_rapport (st : AIState) (s : String) (b : Bool) (e : Nat) :
    (update_emotional_state st s b e).emotional_state.rapport
      = min 1 (st.emotional_state.rapport + 2/100) := by
  cases b <;> simp [update_emotional_state] <;> split_ifs <;> simp

/-- Rapport stays in the clamp range along any update sequence. -/
theorem applyUpdates_rapport_le_one :
    ∀ (us : List (String × Bool × Nat)) (st : AIState),
      st.emotional_state.rapport ≤ 1 →
      (applyUpdates st us).emotional_state.rapport ≤ 1 := by
  intro us
  induction us with
  | nil => intro st h; exact h
  | cons u us ih =>
    intro st _
    have h1 : (update_emotional_state st u.1 u.2.1 u.2.2).emotional_state.rapport ≤ 1 := by
      rw [update_emotional_rapport]; exact min_le_left _ _
    exact ih _ h1

/-- A clamped-at-1 rapport never decreases under further updates. -/
theorem applyUpdates_rapport_mono :
    ∀ (vs : List (String × Bool × Nat)) (st : AIState),
      st.emotional_state.rapport ≤ 1 →
      st.emotional_state.rapport ≤ (applyUpdates st vs).emotional_state.rapport := by
  intro vs
  induction vs with
  | nil => intro st _; exact le_refl _
  | cons u vs ih =>
    intro st h
    have step : st.emotional_state.rapport
        ≤ (update_emotional_state st u.1 u.2.1 u.2.2).emotional_state.rapport := by
      rw [update_emotional_rapport]
      exact le_min h (le_add_of_nonneg_right (by norm_num))
    have inv : (update_emotional_state st u.1 u.2.1 u.2.2).emotional_state.rapport ≤ 1 := by
      rw [update_emotional_rapport]; exact min_le_left _ _
    exact le_trans step (ih _ inv)

/-- C7: every emotional-state update sets rapport to `min(1.0, rapport +
0.02)`, and across any sequence of update calls within one session (started
at the source's initial rapport 0.5) rapport is monotonically
non-decreasing: extending the call sequence never lowers it. -/
theorem C7_rapport_monotone :
    (∀ (st : AIState) (s : String) (b : Bool) (e : Nat),
        (update_emotional_state st s b e).emotional_state.rapport
          = min 1 (st.emotional_state.rapport + 2/100))
      ∧ ∀ (us vs : List (String × Bool × Nat)),
        (applyUpdates ({} : AIState) us).emotional_state.rapport
          ≤ (applyUpdates ({} : AIState) (us ++ vs)).emotional_state.rapport := by
  refine ⟨update_emotional_rapport, fun us vs => ?_⟩
  have h0 : ({} : AIState).emotional_state.rapport ≤ 1 := by norm_num
  have hus := applyUpdates_rapport_le_one us ({} : AIState) h0
  calc (applyUpdates ({} : AIState) us).emotional_state.rapport
      ≤ (applyUpdates (applyUpdates ({} : AIState) us) vs).emotional_state.rapport :=
        applyUpdates_rapport_mono vs _ hus
    _ = (applyUpdates ({} : AIState) (us ++ vs)).emotional_state.rapport := by
        simp [applyUpdates, List.foldl_append]

/-- C8: the Query Rewriter's rules are tried in fixed priority order and the
first match wins: whenever the query contains a bare pronoun token (the
source's whole-word test) and `current_topic` is set, the rewrite is the
query with the topic annotation appended — regardless of any follow-up
starter, comparison word or how-to pattern also present. -/
theorem C8_pronoun_rule_first :
    ∀ (st : AIState) (query topic : String),
      st.conversation.current_topic = some topic →
      pronounHit (pyLower query) = true →
      improve_query_understanding st query
        = query ++ " [Context: discussing " ++ topic ++ "]" := by
  intro st query topic ht hp
  simp [improve_query_understanding, hp, ht]

/-- C8 witness: "and how do i fix it or that" has the pronouns "it" and
"that", starts with the follow-up starter "and" and contains the comparison
word "or", yet with a topic set the pronoun rule still wins. -/
theorem C8_pronoun_rule_first_witness :
    improve_query_understanding { conversation := { current_topic := some "coding" } }
        "and how do i fix it or that"
        = "and how do i fix it or that [Context: discussing coding]"
      ∧ pyStartsWith (pyLower "and how do i fix it or that") "and" = true
      ∧ strContains (pyLower "and how do i fix it or that") "or" = true :=
  ⟨C8_pronoun_rule_first _ "and how do i fix it or that" "coding" rfl (by decide),
   by decide, by decide⟩

end ZEE
